import Mathlib

/-!
Verification of the SecureVault repository against its natural-language
specification.  The repository under verification is a password-security
application: a React frontend (under src/frontend) plus a Flask backend
engine described by the spec (Strength Analyzer, Secret Generator, Vault
Cipher, Breach Oracle, TOTP Engine).  The backend Python sources are not
part of the file set, so the backend operations that the claims need are
modelled from the specification text; every frontend function is embedded
directly from its JavaScript source.

Strings manipulated by the JavaScript code are embedded as `List Char`
where the code inspects or transforms their characters, and as `String`
where they are only compared or used as opaque labels.
-/

/- ===================================================================
   Part 1.  frontend/src/utils/helpers.js  and the strength meter
   (claims C4, C8, C10)
   =================================================================== -/

/-- Embeds `getStrengthColor` from src/frontend/src/utils/helpers.js
(lines 19-25): a chain of `score >= threshold` tests returning a CSS
class name.  The numeric score is embedded as an integer. -/
def getStrengthColor (score : Int) : String :=
  if score ≥ 80 then "text-green-400"
  else if score ≥ 60 then "text-cyan-400"
  else if score ≥ 40 then "text-yellow-400"
  else if score ≥ 20 then "text-orange-400"
  else "text-red-400"

/-- Embeds `getStrengthGradient` from src/frontend/src/utils/helpers.js
(lines 30-36). -/
def getStrengthGradient (score : Int) : String :=
  if score ≥ 80 then "from-green-500 to-emerald-400"
  else if score ≥ 60 then "from-cyan-500 to-blue-400"
  else if score ≥ 40 then "from-yellow-500 to-amber-400"
  else if score ≥ 20 then "from-orange-500 to-red-400"
  else "from-red-600 to-red-400"

/-- Embeds `getTextColor` from the PasswordStrengthMeter component
(src/unnamed/part_001, lines 33-39). -/
def getTextColor (score : Int) : String :=
  if score ≥ 80 then "text-green-400"
  else if score ≥ 60 then "text-cyan-400"
  else if score ≥ 40 then "text-yellow-400"
  else if score ≥ 20 then "text-orange-400"
  else "text-red-400"

/-- C4.  The three score-to-display mappings all band the score at the
fixed thresholds 20/40/60/80: the bottom band is selected exactly when
score < 20, the second exactly when 20 <= score < 40, the third exactly
when 40 <= score < 60, the fourth exactly when 60 <= score < 80, and the
top band exactly when score >= 80. -/
theorem C4_score_banding_thresholds (s : Int) :
    ((getStrengthColor s = "text-red-400") ↔ s < 20) ∧
    ((getStrengthColor s = "text-orange-400") ↔ (20 ≤ s ∧ s < 40)) ∧
    ((getStrengthColor s = "text-yellow-400") ↔ (40 ≤ s ∧ s < 60)) ∧
    ((getStrengthColor s = "text-cyan-400") ↔ (60 ≤ s ∧ s < 80)) ∧
    ((getStrengthColor s = "text-green-400") ↔ 80 ≤ s) ∧
    ((getStrengthGradient s = "from-red-600 to-red-400") ↔ s < 20) ∧
    ((getStrengthGradient s = "from-orange-500 to-red-400") ↔ (20 ≤ s ∧ s < 40)) ∧
    ((getStrengthGradient s = "from-yellow-500 to-amber-400") ↔ (40 ≤ s ∧ s < 60)) ∧
    ((getStrengthGradient s = "from-cyan-500 to-blue-400") ↔ (60 ≤ s ∧ s < 80)) ∧
    ((getStrengthGradient s = "from-green-500 to-emerald-400") ↔ 80 ≤ s) ∧
    ((getTextColor s = "text-red-400") ↔ s < 20) ∧
    ((getTextColor s = "text-orange-400") ↔ (20 ≤ s ∧ s < 40)) ∧
    ((getTextColor s = "text-yellow-400") ↔ (40 ≤ s ∧ s < 60)) ∧
    ((getTextColor s = "text-cyan-400") ↔ (60 ≤ s ∧ s < 80)) ∧
    ((getTextColor s = "text-green-400") ↔ 80 ≤ s) := by
  unfold getStrengthColor getStrengthGradient getTextColor
  split_ifs with h1 h2 h3 h4 <;>
    refine ⟨?_, ?_, ?_, ?_, ?_, ?_, ?_, ?_, ?_, ?_, ?_, ?_, ?_, ?_, ?_⟩ <;>
    constructor <;>
    intro h <;>
    first
      | rfl
      | omega
      | exact absurd h (by decide)

/-- C8.  The strength meter component duplicates the shared helper:
`getTextColor` (src/unnamed/part_001) and `getStrengthColor`
(helpers.js) are extensionally equal. -/
theorem C8_getTextColor_eq_getStrengthColor (s : Int) :
    getTextColor s = getStrengthColor s := rfl

/- ===================================================================
   Part 2.  helpers.js getStrengthLabel with JavaScript object-lookup
   semantics (claim C10)
   =================================================================== -/

/-- A JavaScript value as far as the `labels[strength] || 'Unknown'`
expression can observe one: a string, a built-in function inherited from
Object.prototype, the Object.prototype object itself, or undefined. -/
inductive JsValue where
  | str : String → JsValue
  | builtinFn : String → JsValue
  | protoObj : JsValue
  | jsUndefined : JsValue
deriving DecidableEq

/-- JavaScript truthiness restricted to the values above: undefined is
falsy, the empty string is falsy, every other string, every function and
every object is truthy. -/
def jsTruthy : JsValue → Bool
  | .str s => !(s == "")
  | .builtinFn _ => true
  | .protoObj => true
  | .jsUndefined => false

/-- The string-keyed properties that every plain object literal inherits
from Object.prototype (ECMA-262), excluding the `__proto__` accessor,
which is listed separately because it yields an object rather than a
function. -/
def objectProtoKeys : List String :=
  ["constructor", "hasOwnProperty", "isPrototypeOf", "propertyIsEnumerable",
   "toLocaleString", "toString", "valueOf", "__defineGetter__",
   "__defineSetter__", "__lookupGetter__", "__lookupSetter__"]

/-- The five own keys of the `labels` object literal in
`getStrengthLabel` (src/frontend/src/utils/helpers.js lines 41-50). -/
def strengthTierKeys : List String :=
  ["very_weak", "weak", "moderate", "strong", "very_strong"]

/-- JavaScript property access `labels[k]` for the `labels` object
literal of `getStrengthLabel`: own properties first, then the
Object.prototype chain, then undefined. -/
def labelsGet (k : String) : JsValue :=
  if k = "very_weak" then .str "Very Weak"
  else if k = "weak" then .str "Weak"
  else if k = "moderate" then .str "Moderate"
  else if k = "strong" then .str "Strong"
  else if k = "very_strong" then .str "Very Strong"
  else if k = "__proto__" then .protoObj
  else if k ∈ objectProtoKeys then .builtinFn k
  else .jsUndefined

/-- Embeds `getStrengthLabel` from src/frontend/src/utils/helpers.js
(lines 41-50): `return labels[strength] || 'Unknown'`. -/
def getStrengthLabel (strength : String) : JsValue :=
  if jsTruthy (labelsGet strength) then labelsGet strength else .str "Unknown"

/-- C10 counterexample.  The claim says every input outside the five
tier keys yields the string Unknown, but the JavaScript lookup
`labels[strength]` walks the prototype chain: at the input
"constructor" it finds the inherited (truthy) Object constructor
function, so the function returns that function instead of Unknown. -/
theorem C10_counterexample_constructor :
    getStrengthLabel "constructor" = JsValue.builtinFn "constructor" ∧
    getStrengthLabel "constructor" ≠ JsValue.str "Unknown" := by
  constructor <;> decide

/-- C10 amended.  `getStrengthLabel` maps each of the five tier keys to
its display label, and maps every other input to the string Unknown
provided that input is not a property name inherited from
Object.prototype (for those inherited names, such as "constructor" or
"toString", the lookup returns the inherited truthy value instead); on
no input does it fail. -/
theorem C10_getStrengthLabel_total_amended (s : String)
    (hTier : s ∉ strengthTierKeys)
    (hProto : s ∉ "__proto__" :: objectProtoKeys) :
    getStrengthLabel "very_weak" = JsValue.str "Very Weak" ∧
    getStrengthLabel "weak" = JsValue.str "Weak" ∧
    getStrengthLabel "moderate" = JsValue.str "Moderate" ∧
    getStrengthLabel "strong" = JsValue.str "Strong" ∧
    getStrengthLabel "very_strong" = JsValue.str "Very Strong" ∧
    getStrengthLabel s = JsValue.str "Unknown" := by
  refine ⟨by decide, by decide, by decide, by decide, by decide, ?_⟩
  have n1 : s ≠ "very_weak" := fun h => hTier (by simp [strengthTierKeys, h])
  have n2 : s ≠ "weak" := fun h => hTier (by simp [strengthTierKeys, h])
  have n3 : s ≠ "moderate" := fun h => hTier (by simp [strengthTierKeys, h])
  have n4 : s ≠ "strong" := fun h => hTier (by simp [strengthTierKeys, h])
  have n5 : s ≠ "very_strong" := fun h => hTier (by simp [strengthTierKeys, h])
  have hp : s ≠ "__proto__" := fun h => hProto (by simp [h])
  have hm : s ∉ objectProtoKeys := fun h => hProto (List.mem_cons_of_mem _ h)
  simp [getStrengthLabel, labelsGet, jsTruthy, n1, n2, n3, n4, n5, hp, hm]

/-- Closed instance of the amended C10 at the input "other". -/
theorem C10_getStrengthLabel_total_amended_witness :
    getStrengthLabel "very_weak" = JsValue.str "Very Weak" ∧
    getStrengthLabel "weak" = JsValue.str "Weak" ∧
    getStrengthLabel "moderate" = JsValue.str "Moderate" ∧
    getStrengthLabel "strong" = JsValue.str "Strong" ∧
    getStrengthLabel "very_strong" = JsValue.str "Very Strong" ∧
    getStrengthLabel "other" = JsValue.str "Unknown" :=
  C10_getStrengthLabel_total_amended "other" (by decide) (by decide)

/- ===================================================================
   Part 3.  BreachChecker.jsx result rendering (claim C3)
   =================================================================== -/

/-- JavaScript truthiness of an optional error string, as tested by
`emailResult.error ?` in the JSX: absent and empty strings are falsy. -/
def jsOptTruthy : Option String → Bool
  | some s => !(s == "")
  | none => false

/-- The shape of a breach-check response object as the two rendering
branches of BreachChecker.jsx observe it: an optional error field, the
breached flag, and the occurrence count. -/
structure BreachCheckData where
  error : Option String
  breached : Bool
  count : Nat

/-- Which of the three result boxes a rendering branch of
BreachChecker.jsx produces. -/
inductive RenderedOutcome where
  | unavailable
  | breachedBox
  | notBreached
deriving DecidableEq

/-- Embeds the email-result rendering branch of BreachChecker.jsx
(lines 85-119): `emailResult.error ? (yellow unavailable box)
: emailResult.breached ? (red breached box) : (green not-found box)`. -/
def renderEmailResult (r : BreachCheckData) : RenderedOutcome :=
  if jsOptTruthy r.error then .unavailable
  else if r.breached then .breachedBox
  else .notBreached

/-- Embeds the password-result rendering branch of BreachChecker.jsx
(lines 171-190): `passwordResult.breached ? (red breached box)
: (green not-found box)` — note there is no test of the error field. -/
def renderPasswordResult (r : BreachCheckData) : RenderedOutcome :=
  if r.breached then .breachedBox
  else .notBreached

/-- C3, evaluated at the failing input.  A password-check result whose
error field is set (and whose breached flag is false) is rendered by
the password branch as the green not-breached box, not as the
unavailable box — the branch never looks at the error field.  The email
branch, by contrast, does surface the same situation as unavailable. -/
theorem C3_password_error_rendered_as_not_breached :
    renderPasswordResult ⟨some "Unable to check password", false, 0⟩ =
      RenderedOutcome.notBreached ∧
    renderPasswordResult ⟨some "Unable to check password", false, 0⟩ ≠
      RenderedOutcome.unavailable ∧
    renderEmailResult ⟨some "Unable to check email", false, 0⟩ =
      RenderedOutcome.unavailable := by
  refine ⟨rfl, by decide, rfl⟩

/- ===================================================================
   Part 4.  TOTP code input sanitisation (claim C6)
   =================================================================== -/

/-- Embeds the 2FA code input sanitiser used by both TwoFactorSetup
(src/unnamed/part_002 line 264) and the Login page totpCode input
(src/unnamed/part_003 line 116):
`e.target.value.replace(/\D/g, '').slice(0, 6)`. -/
def sanitizeTotpInput (raw : List Char) : List Char :=
  (raw.filter Char.isDigit).take 6

/-- Embeds the guard of `verifyAndEnable` (src/unnamed/part_002 lines
180-185): the request `api.post(..., { code: verifyCode })` is issued
only when the code length is exactly 6; otherwise the handler returns
early. -/
def verifyAndEnable (verifyCode : List Char) : Option (List Char) :=
  if verifyCode.length ≠ 6 then none
  else some verifyCode

/-- Embeds the disabled condition of the Verify button
(src/unnamed/part_002 line 275): `loading || verifyCode.length !== 6`. -/
def verifyButtonEnabled (loading : Bool) (verifyCode : List Char) : Bool :=
  !loading && verifyCode.length == 6

/-- C6.  The 2FA code sanitiser keeps only the decimal digits 0-9 of
the raw input and truncates to at most 6 of them, and a verification
request is only issued (and the Verify button only enabled) when the
code has length exactly 6. -/
theorem C6_totp_code_six_digits (raw code : List Char) :
    (∀ c ∈ sanitizeTotpInput raw, c.isDigit = true) ∧
    (sanitizeTotpInput raw).length ≤ 6 ∧
    (∀ req, verifyAndEnable code = some req → code.length = 6) ∧
    (∀ l, verifyButtonEnabled l code = true → code.length = 6) := by
  refine ⟨?_, ?_, ?_, ?_⟩
  · intro c hc
    exact (List.mem_filter.mp (List.take_subset _ _ hc)).2
  · simp only [sanitizeTotpInput, List.length_take]
    omega
  · intro req hreq
    unfold verifyAndEnable at hreq
    split_ifs at hreq with h
    · omega
  · intro l hl
    unfold verifyButtonEnabled at hl
    simp only [Bool.and_eq_true, beq_iff_eq] at hl
    exact hl.2

/-- Closed instance of C6: the sanitiser output on a mixed input is all
digits of bounded length, and a verification request at a 6-digit code
certifies length 6. -/
theorem C6_totp_code_six_digits_witness :
    ('1' : Char).isDigit = true ∧
    (sanitizeTotpInput "a1b2c3d4e5f6g7".data).length ≤ 6 ∧
    ("123456".data).length = 6 := by
  refine ⟨?_, ?_, ?_⟩
  · exact (C6_totp_code_six_digits "a1b2c3d4e5f6g7".data "123456".data).1
      '1' (by decide)
  · exact (C6_totp_code_six_digits "a1b2c3d4e5f6g7".data "123456".data).2.1
  · exact (C6_totp_code_six_digits "a1b2c3d4e5f6g7".data "123456".data).2.2.1
      "123456".data (by decide)

/- ===================================================================
   Part 5.  Register.jsx password requirements and submit guard
   (claim C9)
   =================================================================== -/

/-- Requirement 1 of `passwordRequirements` (Register.jsx lines 42-46):
`formData.password.length >= 8`. -/
def reqLength8 (p : List Char) : Bool :=
  decide (8 ≤ p.length)

/-- Requirement 2 (Register.jsx lines 47-50): `/[A-Z]/.test(password)`. -/
def reqUpper (p : List Char) : Bool :=
  p.any (fun c => decide ('A' ≤ c) && decide (c ≤ 'Z'))

/-- Requirement 3 (Register.jsx lines 51-54): `/[a-z]/.test(password)`. -/
def reqLower (p : List Char) : Bool :=
  p.any (fun c => decide ('a' ≤ c) && decide (c ≤ 'z'))

/-- Requirement 4 (Register.jsx lines 55-58): `/\d/.test(password)`. -/
def reqDigit (p : List Char) : Bool :=
  p.any (fun c => decide ('0' ≤ c) && decide (c ≤ '9'))

/-- `passwordRequirements.every(req => req.met)` over the four
requirements (Register.jsx line 69). -/
def passwordRequirementsMet (p : List Char) : Bool :=
  reqLength8 p && reqUpper p && reqLower p && reqDigit p

/-- The registration form state of Register.jsx. -/
structure RegisterForm where
  email : String
  password : List Char
  confirmPassword : List Char

/-- The arguments of the `register(formData.email, formData.password)`
call issued by a successful submit. -/
structure RegisterCall where
  email : String
  password : List Char
deriving DecidableEq

/-- Embeds `handleSubmit` of Register.jsx (lines 61-72): return early
when password and confirmation differ, return early when some
requirement is unmet, otherwise call register. -/
def registerHandleSubmit (f : RegisterForm) : Option RegisterCall :=
  if f.password ≠ f.confirmPassword then none
  else if !(passwordRequirementsMet f.password) then none
  else some ⟨f.email, f.password⟩

/-- C9.  A registration request is only issued when the chosen password
has length at least 8, contains an uppercase letter, a lowercase letter
and a digit, and equals the confirmation field; every form state
violating any of these makes the submit handler return without calling
register. -/
theorem C9_register_requires_password_rules (f : RegisterForm)
    (r : RegisterCall) (hs : registerHandleSubmit f = some r) :
    8 ≤ f.password.length ∧
    (∃ c ∈ f.password, 'A' ≤ c ∧ c ≤ 'Z') ∧
    (∃ c ∈ f.password, 'a' ≤ c ∧ c ≤ 'z') ∧
    (∃ c ∈ f.password, '0' ≤ c ∧ c ≤ '9') ∧
    f.password = f.confirmPassword ∧
    r = ⟨f.email, f.password⟩ := by
  unfold registerHandleSubmit at hs
  split_ifs at hs with h1 h2
  have hmet : passwordRequirementsMet f.password = true := by
    revert h2; cases passwordRequirementsMet f.password <;> simp
  have heq : f.password = f.confirmPassword := by
    revert h1; by_cases h : f.password = f.confirmPassword <;> simp [h]
  simp only [passwordRequirementsMet, reqLength8, reqUpper, reqLower,
    reqDigit, Bool.and_eq_true, List.any_eq_true, decide_eq_true_eq] at hmet
  obtain ⟨⟨⟨hlen, hup⟩, hlo⟩, hdig⟩ := hmet
  refine ⟨hlen, ?_, ?_, ?_, heq, ?_⟩
  · obtain ⟨c, hc, hcu⟩ := hup
    exact ⟨c, hc, hcu⟩
  · obtain ⟨c, hc, hcl⟩ := hlo
    exact ⟨c, hc, hcl⟩
  · obtain ⟨c, hc, hcd⟩ := hdig
    exact ⟨c, hc, hcd⟩
  · exact (Option.some.inj hs).symm

/-- Closed instance of C9: the concrete form state with password
Passw0rd and matching confirmation passes the guard, and the theorem
certifies the requirement facts for it. -/
theorem C9_register_requires_password_rules_witness :
    8 ≤ ("Passw0rd".data).length ∧
    (∃ c ∈ "Passw0rd".data, 'A' ≤ c ∧ c ≤ 'Z') ∧
    (∃ c ∈ "Passw0rd".data, 'a' ≤ c ∧ c ≤ 'z') ∧
    (∃ c ∈ "Passw0rd".data, '0' ≤ c ∧ c ≤ '9') ∧
    "Passw0rd".data = "Passw0rd".data ∧
    (⟨"user@example.com", "Passw0rd".data⟩ : RegisterCall) =
      ⟨"user@example.com", "Passw0rd".data⟩ := by
  have h := C9_register_requires_password_rules
    ⟨"user@example.com", "Passw0rd".data, "Passw0rd".data⟩
    ⟨"user@example.com", "Passw0rd".data⟩ (by decide)
  exact h

/- ===================================================================
   Part 6.  PasswordGenerator options state and request payload
   (claim C5; component in src/frontend/src/components/SecurityScore.jsx
   lines 98-297)
   =================================================================== -/

/-- The two generation modes offered by the type toggle buttons. -/
inductive GenMode where
  | password
  | passphrase
deriving DecidableEq

/-- The `options` React state of the PasswordGenerator component
(SecurityScore.jsx lines 112-120). -/
structure GenOptions where
  length : Nat
  useLowercase : Bool
  useUppercase : Bool
  useDigits : Bool
  useSymbols : Bool
  mode : GenMode
  wordCount : Nat

/-- The initial `options` state:
`{ length: 16, useLowercase: true, useUppercase: true, useDigits: true,
useSymbols: true, type: 'password', wordCount: 4 }`. -/
def initialGenOptions : GenOptions :=
  { length := 16, useLowercase := true, useUppercase := true,
    useDigits := true, useSymbols := true, mode := .password,
    wordCount := 4 }

/-- One `updateOption` call the UI can make.  The length slider is an
HTML range input with min 8 and max 64 (SecurityScore.jsx lines
202-209), so a length update carries a value in 8..64; the word-count
slider has min 3 and max 8 (lines 241-248); the class checkboxes and
the mode toggle are unconstrained. -/
inductive GenOptionsStep : GenOptions → GenOptions → Prop
  | setLength (o : GenOptions) (v : Nat) (h8 : 8 ≤ v) (h64 : v ≤ 64) :
      GenOptionsStep o { o with length := v }
  | setWordCount (o : GenOptions) (v : Nat) (h3 : 3 ≤ v) (h8 : v ≤ 8) :
      GenOptionsStep o { o with wordCount := v }
  | setMode (o : GenOptions) (m : GenMode) :
      GenOptionsStep o { o with mode := m }
  | setLowercase (o : GenOptions) (b : Bool) :
      GenOptionsStep o { o with useLowercase := b }
  | setUppercase (o : GenOptions) (b : Bool) :
      GenOptionsStep o { o with useUppercase := b }
  | setDigits (o : GenOptions) (b : Bool) :
      GenOptionsStep o { o with useDigits := b }
  | setSymbols (o : GenOptions) (b : Bool) :
      GenOptionsStep o { o with useSymbols := b }

/-- The options states the generator UI can reach from its initial
state through `updateOption` calls. -/
inductive ReachableGenOptions : GenOptions → Prop
  | init : ReachableGenOptions initialGenOptions
  | step {o o' : GenOptions} : ReachableGenOptions o →
      GenOptionsStep o o' → ReachableGenOptions o'

/-- The request body built by `generatePassword` (SecurityScore.jsx
lines 122-137): a passphrase-mode request carries only the word count,
a password-mode request carries the length and the four independent
class booleans. -/
inductive GenPayload where
  | password (length : Nat) (useLowercase useUppercase useDigits useSymbols : Bool)
  | passphrase (wordCount : Nat)
deriving DecidableEq

/-- Embeds the payload construction of `generatePassword`. -/
def generatePayload (o : GenOptions) : GenPayload :=
  match o.mode with
  | .passphrase => .passphrase o.wordCount
  | .password =>
      .password o.length o.useLowercase o.useUppercase o.useDigits o.useSymbols

/-- Both slider-bound fields stay in their slider ranges in every
reachable options state. -/
theorem reachableGenOptions_bounds {o : GenOptions}
    (h : ReachableGenOptions o) :
    8 ≤ o.length ∧ o.length ≤ 64 ∧ 3 ≤ o.wordCount ∧ o.wordCount ≤ 8 := by
  induction h with
  | init => exact ⟨by decide, by decide, by decide, by decide⟩
  | step _ hstep ih =>
      cases hstep <;> simp_all

/-- C5.  Every generation request the generator UI can produce
satisfies the GenerationSpec bounds: a password-mode request has a
length within 8..128 (indeed within the slider range 8..64) together
with the four independent class booleans, and a passphrase-mode request
carries only a word count within 3..10 (indeed within the slider range
3..8). -/
theorem C5_generation_payload_bounds {o : GenOptions}
    (h : ReachableGenOptions o) :
    (∀ l lo up di sy, generatePayload o = .password l lo up di sy →
      8 ≤ l ∧ l ≤ 128 ∧ l ≤ 64) ∧
    (∀ w, generatePayload o = .passphrase w →
      3 ≤ w ∧ w ≤ 10 ∧ w ≤ 8) := by
  obtain ⟨hl8, hl64, hw3, hw8⟩ := reachableGenOptions_bounds h
  constructor
  · intro l lo up di sy hp
    unfold generatePayload at hp
    cases hm : o.mode <;> rw [hm] at hp
    · cases hp
      exact ⟨hl8, by omega, hl64⟩
    · cases hp
  · intro w hp
    unfold generatePayload at hp
    cases hm : o.mode <;> rw [hm] at hp
    · cases hp
    · cases hp
      exact ⟨hw3, by omega, hw8⟩

/-- Closed instance of C5 at the initial options state, whose payload
is a password-mode request of length 16. -/
theorem C5_generation_payload_bounds_witness :
    8 ≤ 16 ∧ 16 ≤ 128 ∧ 16 ≤ 64 :=
  (C5_generation_payload_bounds ReachableGenOptions.init).1
    16 true true true true rfl

/- ===================================================================
   Part 7.  Strength Analyzer: frontend guard (Analyzer page,
   src/unnamed/part_003) and the backend analyze operation modelled
   from the spec (claim C7)
   =================================================================== -/

/-- JavaScript `String.prototype.trim` on the character list of a
string: leading and trailing whitespace removed. -/
def trimChars (l : List Char) : List Char :=
  ((l.dropWhile Char.isWhitespace).reverse.dropWhile Char.isWhitespace).reverse

/-- Embeds the guard of `analyzePassword` (src/unnamed/part_003 lines
172-184): `if (!password.trim()) return`, else the request
`api.post('/analyze', { password })` is issued with the untrimmed
password. -/
def analyzeRequest (password : List Char) : Option (List Char) :=
  if trimChars password = [] then none
  else some password

/-- Embeds the disabled condition of the Analyze button
(src/unnamed/part_003 line 238): `loading || !password.trim()`. -/
def analyzeButtonEnabled (loading : Bool) (password : List Char) : Bool :=
  !loading && !(trimChars password == [])

/-- The analysis result fields this development needs.  Entropy is kept
as the integer part of the spec formula length times log2 of the
alphabet size; the exact numeric value is not load-bearing for the
claims settled here. -/
structure AnalysisResult where
  length : Nat
  hasLower : Bool
  hasUpper : Bool
  hasDigit : Bool
  hasSymbol : Bool
  alphabetSize : Nat
  entropyBits : Nat
deriving DecidableEq

/-- Modelled from the spec: the backend Strength Analyzer operation
`analyze(password) -> AnalysisResult` (backend/security/
password_analyzer.py, not under src/).  Spec section 4.1: reject empty
input with a validation error; otherwise classify characters into the
four classes, sum the class sizes actually present into the alphabet
size, estimate entropy as length times log2 of the alphabet size, and
return a result; the analyzer never fails except on invalid (empty)
input. -/
def analyze (password : List Char) : Except String AnalysisResult :=
  if password = [] then .error "Password is required"
  else
    let lo := password.any Char.isLower
    let up := password.any Char.isUpper
    let di := password.any Char.isDigit
    let sy := password.any (fun c => !(c.isLower || c.isUpper || c.isDigit))
    let asize := (if lo then 26 else 0) + (if up then 26 else 0) +
      (if di then 10 else 0) + (if sy then 32 else 0)
    .ok { length := password.length, hasLower := lo, hasUpper := up,
          hasDigit := di, hasSymbol := sy, alphabetSize := asize,
          entropyBits := password.length * Nat.log2 asize }

/-- C7.  Empty input is rejected as a validation error and the analyzer
fails on no other input: the modelled backend returns an error exactly
on the empty password and a result on every non-empty password, and the
Analyzer page issues no request (and keeps the button disabled) for an
empty or whitespace-only input, while issuing the request for every
input whose trim is non-empty. -/
theorem C7_analyzer_empty_input_only (p : List Char) :
    analyze [] = .error "Password is required" ∧
    (p ≠ [] → ∃ r, analyze p = .ok r) ∧
    ((∀ c ∈ p, c.isWhitespace = true) → analyzeRequest p = none ∧
      ∀ l, analyzeButtonEnabled l p = false) ∧
    (trimChars p ≠ [] → analyzeRequest p = some p) := by
  refine ⟨rfl, ?_, ?_, ?_⟩
  · intro hp
    unfold analyze
    rw [if_neg hp]
    exact ⟨_, rfl⟩
  · intro hws
    have h1 : p.dropWhile Char.isWhitespace = [] :=
      List.dropWhile_eq_nil_iff.mpr fun c hc => hws c hc
    have ht : trimChars p = [] := by
      unfold trimChars
      rw [h1]
      rfl
    constructor
    · unfold analyzeRequest
      rw [if_pos ht]
    · intro l
      unfold analyzeButtonEnabled
      rw [ht]
      simp
  · intro hne
    unfold analyzeRequest
    rw [if_neg hne]

/-- Closed instance of C7: a one-letter password analyzes to a result,
and a single space issues no request. -/
theorem C7_analyzer_empty_input_only_witness :
    (∃ r, analyze ['a'] = .ok r) ∧ analyzeRequest [' '] = none :=
  ⟨(C7_analyzer_empty_input_only ['a']).2.1 (by decide),
   ((C7_analyzer_empty_input_only [' ']).2.2.1 (by decide)).1⟩

/- ===================================================================
   Part 8.  Breach Oracle password path modelled from the spec
   (claim C2)
   =================================================================== -/

/-- The ten decimal digit characters. -/
def decimalDigits : List Char :=
  ['0', '1', '2', '3', '4', '5', '6', '7', '8', '9']

/-- The sixteen lowercase hexadecimal digit characters. -/
def hexDigitsLower : List Char :=
  decimalDigits ++ ['a', 'b', 'c', 'd', 'e', 'f']

/-- The sixteen uppercase hexadecimal digit characters. -/
def hexDigitsUpper : List Char :=
  decimalDigits ++ ['A', 'B', 'C', 'D', 'E', 'F']

/-- The outcome of a password breach check. -/
structure BreachOracleResult where
  breached : Bool
  count : Nat
deriving DecidableEq

/-- Modelled from the spec: the query material `checkPassword` sends to
the remote breach corpus (backend/security/breach_checker.py, not under
src/).  Spec section 4.4: compute SHA-1 of the password, split into a
5-character prefix and remaining suffix, send only the prefix.  The
SHA-1 hex digest is a parameter so the protocol properties are proved
for every digest function producing 40 lowercase hex characters; the
digest is uppercased as the wire format requires. -/
def breachQuerySent (sha1Hex : String → List Char) (password : String) :
    List Char :=
  ((sha1Hex password).map Char.toUpper).take 5

/-- Modelled from the spec: the hash suffix that stays with the caller
for the local comparison. -/
def breachSuffixKept (sha1Hex : String → List Char) (password : String) :
    List Char :=
  ((sha1Hex password).map Char.toUpper).drop 5

/-- Modelled from the spec: `checkPassword(password) -> BreachResult`.
The remote corpus is a function from the sent query material to a list
of (suffix, count) pairs; the breached decision is the local comparison
of the kept suffix against that list. -/
def checkPassword (sha1Hex : String → List Char)
    (respond : List Char → List (List Char × Nat)) (password : String) :
    BreachOracleResult :=
  match (respond (breachQuerySent sha1Hex password)).find?
      (fun pr => pr.1 == breachSuffixKept sha1Hex password) with
  | some pr => { breached := true, count := pr.2 }
  | none => { breached := false, count := 0 }

/-- Uppercasing a lowercase hex digit yields an uppercase hex digit. -/
theorem toUpper_mem_hexDigitsUpper :
    ∀ c ∈ hexDigitsLower, c.toUpper ∈ hexDigitsUpper := by
  decide

/-- C2.  For every digest function producing 40 lowercase hex
characters, every password and every remote corpus: the only query
material sent is the first 5 characters of the uppercased SHA-1 digest
and is exactly 5 uppercase hex characters; sent prefix and kept suffix
partition the digest, so the suffix (and the password, of which the
remote sees nothing but the prefix) never leaves the caller — two
corpora agreeing on the sent prefix produce identical outcomes — and
the breached decision is the local comparison of the kept suffix
against the returned (suffix, count) list. -/
theorem C2_breach_kanonymity (sha1Hex : String → List Char)
    (hlen : ∀ s, (sha1Hex s).length = 40)
    (hhex : ∀ s, ∀ c ∈ sha1Hex s, c ∈ hexDigitsLower)
    (respond : List Char → List (List Char × Nat)) (password : String) :
    (breachQuerySent sha1Hex password).length = 5 ∧
    (∀ c ∈ breachQuerySent sha1Hex password, c ∈ hexDigitsUpper) ∧
    breachQuerySent sha1Hex password ++ breachSuffixKept sha1Hex password =
      (sha1Hex password).map Char.toUpper ∧
    (∀ respond2 : List Char → List (List Char × Nat),
      respond (breachQuerySent sha1Hex password) =
        respond2 (breachQuerySent sha1Hex password) →
      checkPassword sha1Hex respond password =
        checkPassword sha1Hex respond2 password) ∧
    ((checkPassword sha1Hex respond password).breached = true ↔
      ∃ pr ∈ respond (breachQuerySent sha1Hex password),
        pr.1 = breachSuffixKept sha1Hex password) := by
  refine ⟨?_, ?_, ?_, ?_, ?_⟩
  · unfold breachQuerySent
    rw [List.length_take, List.length_map, hlen]
    decide
  · intro c hc
    have hc2 : c ∈ (sha1Hex password).map Char.toUpper :=
      List.take_subset _ _ hc
    obtain ⟨d, hd, rfl⟩ := List.mem_map.mp hc2
    exact toUpper_mem_hexDigitsUpper d (hhex password d hd)
  · exact List.take_append_drop _ _
  · intro respond2 hagree
    unfold checkPassword
    rw [hagree]
  · unfold checkPassword
    cases hfind : (respond (breachQuerySent sha1Hex password)).find?
        (fun pr => pr.1 == breachSuffixKept sha1Hex password) with
    | some pr =>
        constructor
        · intro
          exact ⟨pr, List.mem_of_find?_eq_some hfind,
            by simpa using List.find?_some hfind⟩
        · intro
          rfl
    | none =>
        constructor
        · intro hfalse
          simp at hfalse
        · intro hex
          obtain ⟨pr, hmem, hsuf⟩ := hex
          have hnone := List.find?_eq_none.mp hfind pr hmem
          simp [hsuf] at hnone

/-- Closed instance of C2 at the SHA-1 digest of the password
"password" (5baa61e4...) and an empty corpus: the sent material is
5 characters long, all uppercase hex. -/
theorem C2_breach_kanonymity_witness :
    (breachQuerySent (fun _ => "5baa61e4c9b93f3f0682250b6cf8331b7ee68fd8".data)
      "password").length = 5 ∧
    (∀ c ∈ breachQuerySent
      (fun _ => "5baa61e4c9b93f3f0682250b6cf8331b7ee68fd8".data) "password",
      c ∈ hexDigitsUpper) := by
  have h := C2_breach_kanonymity
    (fun _ => "5baa61e4c9b93f3f0682250b6cf8331b7ee68fd8".data)
    (by
      intro s
      show ("5baa61e4c9b93f3f0682250b6cf8331b7ee68fd8".data).length = 40
      decide)
    (by
      intro s
      show ∀ c ∈ "5baa61e4c9b93f3f0682250b6cf8331b7ee68fd8".data,
        c ∈ hexDigitsLower
      decide)
    (fun _ => []) "password"
  exact ⟨h.1, h.2.1⟩

/- ===================================================================
   Part 9.  Vault Cipher modelled from the spec (claim C1)
   =================================================================== -/

/-- Modelled from the spec: the key-derivation routine of the Vault
Cipher (backend/security/encryption.py, not under src/).  Spec section
4.3: a deterministic KDF stretching the master key and a per-record
salt into a per-record key.  The model keeps the single property the
claims rely on — distinct (master key, salt) inputs derive distinct
keys — by using the injective Cantor pairing in place of
PBKDF2-HMAC-SHA256. -/
def deriveKey (masterKey salt : Nat) : Nat :=
  Nat.pair masterKey salt

/-- One keystream byte of the idealised AEAD stream cipher, determined
by the derived key, the nonce and the byte position. -/
def padByte (dk nonce i : Nat) : Nat :=
  Nat.pair (Nat.pair dk nonce) i % 256

/-- XOR of a byte sequence against the keystream starting at position
i.  Applying it twice with the same key and nonce restores the input. -/
def xorKeystream (dk nonce : Nat) : Nat → List Nat → List Nat
  | _, [] => []
  | i, b :: bs => (b ^^^ padByte dk nonce i) :: xorKeystream dk nonce (i + 1) bs

/-- Injective encoding of a byte sequence as a single natural number,
used by the idealised authentication tag. -/
def encodeBytes : List Nat → Nat
  | [] => 0
  | b :: bs => Nat.pair b (encodeBytes bs) + 1

/-- Modelled from the spec: the authentication tag over the derived
key, the nonce and the ciphertext.  Spec section 4.3 prescribes an AEAD
tag whose verification is mandatory before any plaintext is released;
the model idealises the MAC as an injective function of the key, nonce
and ciphertext, which is the property tag verification is trusted
for. -/
def macTag (dk nonce : Nat) (ct : List Nat) : Nat :=
  Nat.pair dk (Nat.pair nonce (encodeBytes ct))

/-- The VaultCiphertext envelope of the spec data model:
{salt, nonce, ciphertext, authentication tag}. -/
structure VaultCiphertext where
  salt : Nat
  nonce : Nat
  ct : List Nat
  tag : Nat
deriving DecidableEq

/-- Modelled from the spec: `encrypt(plaintext, masterKey) ->
VaultCiphertext` with the freshly drawn salt and nonce passed in as the
randomness of the call. -/
def encrypt (plaintext : List Nat) (masterKey salt nonce : Nat) :
    VaultCiphertext :=
  { salt := salt, nonce := nonce,
    ct := xorKeystream (deriveKey masterKey salt) nonce 0 plaintext,
    tag := macTag (deriveKey masterKey salt) nonce
      (xorKeystream (deriveKey masterKey salt) nonce 0 plaintext) }

/-- Modelled from the spec: `decrypt(VaultCiphertext, masterKey) ->
plaintext | error`.  The tag is verified before any plaintext is
computed or released; a mismatch yields none and no plaintext bytes. -/
def decrypt (env : VaultCiphertext) (masterKey : Nat) : Option (List Nat) :=
  if macTag (deriveKey masterKey env.salt) env.nonce env.ct = env.tag then
    some (xorKeystream (deriveKey masterKey env.salt) env.nonce 0 env.ct)
  else none

/-- XOR against the same keystream twice is the identity. -/
theorem xorKeystream_xorKeystream (dk nonce : Nat) (i : Nat) (l : List Nat) :
    xorKeystream dk nonce i (xorKeystream dk nonce i l) = l := by
  induction l generalizing i with
  | nil => rfl
  | cons b bs ih =>
      simp only [xorKeystream, Nat.xor_cancel_right, List.cons.injEq]
      exact ⟨trivial, ih (i + 1)⟩

/-- The byte-sequence encoding behind the tag is injective. -/
theorem encodeBytes_inj : ∀ {l1 l2 : List Nat},
    encodeBytes l1 = encodeBytes l2 → l1 = l2 := by
  intro l1
  induction l1 with
  | nil =>
      intro l2 h
      cases l2 with
      | nil => rfl
      | cons c cs =>
          exfalso
          simp only [encodeBytes] at h
          omega
  | cons b bs ih =>
      intro l2 h
      cases l2 with
      | nil =>
          exfalso
          simp only [encodeBytes] at h
          omega
      | cons c cs =>
          simp only [encodeBytes, Nat.add_right_cancel_iff] at h
          obtain ⟨hb, hrest⟩ := Nat.pair_eq_pair.mp h
          rw [hb, ih hrest]

/-- The idealised tag is injective in the derived key, the nonce and
the ciphertext. -/
theorem macTag_inj {dk1 dk2 n1 n2 : Nat} {ct1 ct2 : List Nat}
    (h : macTag dk1 n1 ct1 = macTag dk2 n2 ct2) :
    dk1 = dk2 ∧ n1 = n2 ∧ ct1 = ct2 := by
  unfold macTag at h
  obtain ⟨hdk, h2⟩ := Nat.pair_eq_pair.mp h
  obtain ⟨hn, hct⟩ := Nat.pair_eq_pair.mp h2
  exact ⟨hdk, hn, encodeBytes_inj hct⟩

/-- C1.  Vault cipher round trip and authentication: decrypting an
encryption with the same master key returns the plaintext; decrypting
it with any other master key fails; modifying the ciphertext, the tag,
the nonce or the salt of the envelope makes decryption fail with no
plaintext returned; and any envelope that decrypts successfully under a
key is exactly the honest encryption, under that key, of the returned
plaintext — so a successful decryption never returns an altered
plaintext. -/
theorem C1_vault_cipher_roundtrip_auth (p : List Nat) (k salt nonce : Nat) :
    decrypt (encrypt p k salt nonce) k = some p ∧
    (∀ k2, k2 ≠ k → decrypt (encrypt p k salt nonce) k2 = none) ∧
    (∀ ct2, ct2 ≠ (encrypt p k salt nonce).ct →
      decrypt { encrypt p k salt nonce with ct := ct2 } k = none) ∧
    (∀ t2, t2 ≠ (encrypt p k salt nonce).tag →
      decrypt { encrypt p k salt nonce with tag := t2 } k = none) ∧
    (∀ n2, n2 ≠ nonce →
      decrypt { encrypt p k salt nonce with nonce := n2 } k = none) ∧
    (∀ s2, s2 ≠ salt →
      decrypt { encrypt p k salt nonce with salt := s2 } k = none) ∧
    (∀ env : VaultCiphertext, ∀ q : List Nat, decrypt env k = some q →
      env = encrypt q k env.salt env.nonce) := by
  refine ⟨?_, ?_, ?_, ?_, ?_, ?_, ?_⟩
  · unfold decrypt encrypt
    rw [if_pos rfl, xorKeystream_xorKeystream]
  · intro k2 hk2
    unfold decrypt encrypt
    simp only []
    rw [if_neg]
    intro hmac
    exact hk2 (Nat.pair_eq_pair.mp (macTag_inj hmac).1).1
  · intro ct2 hct2
    unfold decrypt encrypt
    simp only []
    rw [if_neg]
    intro hmac
    exact hct2 (macTag_inj hmac).2.2
  · intro t2 ht2
    unfold decrypt encrypt
    simp only []
    rw [if_neg]
    intro hmac
    exact ht2 hmac.symm
  · intro n2 hn2
    unfold decrypt encrypt
    simp only []
    rw [if_neg]
    intro hmac
    exact hn2 (macTag_inj hmac).2.1
  · intro s2 hs2
    unfold decrypt encrypt
    simp only []
    rw [if_neg]
    intro hmac
    exact hs2 (Nat.pair_eq_pair.mp (macTag_inj hmac).1).2
  · intro env q hq
    unfold decrypt at hq
    split_ifs at hq with htag
    have hqval : q = xorKeystream (deriveKey k env.salt) env.nonce 0 env.ct :=
      (Option.some.inj hq).symm
    obtain ⟨s, n, c, t⟩ := env
    simp only at htag hqval
    unfold encrypt
    simp only [VaultCiphertext.mk.injEq]
    refine ⟨trivial, trivial, ?_, ?_⟩
    · rw [hqval, xorKeystream_xorKeystream]
    · rw [hqval, xorKeystream_xorKeystream]
      exact htag.symm

/-- Closed instance of C1: round trip at a concrete plaintext, failure
under a different master key, and failure after flipping the tag. -/
theorem C1_vault_cipher_roundtrip_auth_witness :
    decrypt (encrypt [7, 200, 13] 5 1 2) 5 = some [7, 200, 13] ∧
    decrypt (encrypt [7, 200, 13] 5 1 2) 9 = none ∧
    decrypt { encrypt [7, 200, 13] 5 1 2 with
      tag := (encrypt [7, 200, 13] 5 1 2).tag + 1 } 5 = none := by
  have h := C1_vault_cipher_roundtrip_auth [7, 200, 13] 5 1 2
  exact ⟨h.1, h.2.1 9 (by decide),
    h.2.2.2.1 ((encrypt [7, 200, 13] 5 1 2).tag + 1) (by omega)⟩
